import Mathlib

/-!
Verification development for the PCSX2 execution-core pair:
`pcsx2/ps2/CoreEmuThread.cpp` (execution state controller) and the
recovery/snapshot engine (`RecoverySystem.cpp`, provided unnamed).

The C++ is shallowly embedded: the mutable globals and member fields become
explicit state records, each C++ function becomes a pure Lean function on
that state (or a constructor of a small-step relation for the concurrent
protocol), and side effects that matter to the claims (event posts,
execution-cache clears, suspend/resume calls, warning dialogs) are counted
in the state.  External collaborators that are not part of this repository
(the base savestate codec `memSavingState`/`gzSavingState`, `SysSuspend`,
`SysResume`, `SysClearExecutionCache`) are modelled from the spec where
noted.
-/

namespace PCSX2

/-- The `ExecMode` enumeration of `CoreEmuThread` (`m_ExecMode`). -/
inductive ExecMode where
  | Idle
  | Running
  | Suspending
  | Suspended
deriving DecidableEq, Repr

/-- The configuration field groups `ApplySettings` compares
(`src.Cpu`, `src.Gamefixes`, `src.Speedhacks`, `src.Profiler`); each group's
contents are abstracted to a `Nat`, only equality of groups matters. -/
structure Pcsx2Config where
  cpu : Nat
  gamefixes : Nat
  speedhacks : Nat
  profiler : Nat
deriving DecidableEq, Repr

/-- The controller state touched by `CoreEmuThread`: the execution mode, the
two reset flags, the active configuration `EmuConfig`, plus instrumentation
counters for the observable effects the claims talk about:
`resumePosts` counts `m_ResumeEvent.Post()` calls, `suspendPosts` counts
pending `m_SuspendEvent.Post()` signals, `cacheClears` counts
`SysClearExecutionCache()` invocations. -/
structure CoreState where
  execMode : ExecMode
  resetRecompilers : Bool
  resetProfilers : Bool
  resumePosts : Nat
  suspendPosts : Nat
  cacheClears : Nat
  config : Pcsx2Config
deriving DecidableEq, Repr

/-- Result of `CoreEmuThread::Suspend`: whether the caller goes on to wait on
`m_SuspendEvent` (`WaitGui`) after the locked section. -/
inductive SuspendResult where
  | noWait
  | waits
deriving DecidableEq, Repr

/-- `CoreEmuThread::Suspend( bool isBlocking )`, lines 242-259.
`isSelf` models `IsSelf()`, `isAlive` models `IsRunning()` (thread
liveness).  Note that the source body never consults `isBlocking`: after the
locked section it unconditionally executes `m_SuspendEvent.WaitGui()`. -/
def CoreSuspend (isSelf isAlive isBlocking : Bool) (s : CoreState) :
    CoreState × SuspendResult :=
  if isSelf || !isAlive then (s, .noWait)
  else if s.execMode = .Suspended || s.execMode = .Idle then (s, .noWait)
  else if s.execMode = .Running then
    ({ s with execMode := .Suspending }, .waits)
  else
    -- already Suspending (the DevAssert in the source holds); still waits
    (s, .waits)

/-- Outcome of `CoreEmuThread::Resume`: `noop` covers the self/not-alive and
already-`Running` early returns; `rescinded` is the `Suspending`-with-no-
pending-reset branch that flips straight back to `Running`;
`blockedOnSuspendEvent` is the point where the caller releases the lock and
waits on `m_SuspendEvent` (lines 205-209); `completed` is the fall-through
that runs the final reset/`Running`/`m_ResumeEvent.Post()` block. -/
inductive ResumeOutcome where
  | noop
  | rescinded
  | blockedOnSuspendEvent
  | completed
deriving DecidableEq, Repr

/-- The tail of `CoreEmuThread::Resume` (lines 221-229): clear the execution
cache and both reset flags when either is set, set `Running`, post the
resume event. -/
def resumeFinishBody (c : CoreState) : CoreState :=
  if c.resetRecompilers || c.resetProfilers then
    { c with cacheClears := c.cacheClears + 1
           , resetRecompilers := false
           , resetProfilers := false
           , execMode := .Running
           , resumePosts := c.resumePosts + 1 }
  else
    { c with execMode := .Running, resumePosts := c.resumePosts + 1 }

/-- `CoreEmuThread::Resume()`, lines 190-230, up to the first point at which
the caller either returns or blocks.  A caller that blocks on the suspend
event (`blockedOnSuspendEvent`) has made no state change yet; its
continuation is `resumeFinishBody`, which the small-step system below runs
as a separate step. -/
def CoreResume (isSelf isAlive : Bool) (s : CoreState) :
    CoreState × ResumeOutcome :=
  if isSelf || !isAlive then (s, .noop)
  else if s.execMode = .Running then (s, .noop)
  else if s.execMode = .Suspending then
    if s.resetRecompilers || s.resetProfilers then (s, .blockedOnSuspendEvent)
    else ({ s with execMode := .Running }, .rescinded)
  else
    (resumeFinishBody s, .completed)

/-- `CoreEmuThread::ApplySettings( const Pcsx2Config& src )`, lines 264-269:
recompute both reset flags from field-group comparisons against the active
configuration, then replace the active configuration. -/
def CoreApplySettings (src : Pcsx2Config) (s : CoreState) : CoreState :=
  { s with
      resetRecompilers :=
        (src.cpu != s.config.cpu) || (src.gamefixes != s.config.gamefixes) ||
          (src.speedhacks != s.config.speedhacks)
    , resetProfilers := (src.profiler != s.config.profiler)
    , config := src }

/-- A fixed configuration value used for concrete witnesses. -/
def cfg0 : Pcsx2Config := ⟨0, 0, 0, 0⟩

/-- Program counter of the execution thread (`ExecuteTask`, lines 118-132):
`start` is the initial wait loop for `Running`; `safe` means the thread has
entered the run loop and is executing `StateCheck` (lines 134-161) at safe
points. -/
inductive ExecPC where
  | start
  | safe
deriving DecidableEq, Repr

/-- Global state of the concurrent protocol: the shared controller state,
the numbers of caller threads currently parked in `Suspend`'s
`m_SuspendEvent.WaitGui()` and in `Resume`'s reset-pending
`m_SuspendEvent.WaitGui()` respectively, and the execution thread's
position. -/
structure Sys where
  core : CoreState
  waitingSuspenders : Nat
  waitingResumers : Nat
  execpc : ExecPC
deriving DecidableEq, Repr

/-- Interleaved small-step semantics of `CoreEmuThread`.  Each constructor
is one locked section or one event-wait boundary of the source; any number
of non-execution caller threads may issue `Resume`/`Suspend`/
`ApplySettings`, and the single execution thread runs `ExecuteTask`/
`StateCheck`.  Event waits are modelled by counters: a `Post` increments the
matching counter, a `WaitGui` completes only when the counter is positive
and consumes one post. -/
inductive Step : Sys → Sys → Prop where
  /-- `ApplySettings` (lines 264-269), callable from any thread at any
  time. -/
  | applySettings (s : Sys) (src : Pcsx2Config) :
      Step s { s with core := CoreApplySettings src s.core }
  /-- `Resume` early return when already `Running` (lines 197-198). -/
  | resumeNoop (s : Sys) :
      s.core.execMode = .Running → Step s s
  /-- `Resume` rescinds an in-flight suspend when no reset is pending
  (lines 210-214). -/
  | resumeRescind (s : Sys) :
      s.core.execMode = .Suspending →
      (s.core.resetRecompilers || s.core.resetProfilers) = false →
      Step s { s with core := { s.core with execMode := .Running } }
  /-- `Resume` with a reset pending releases the lock and parks on the
  suspend event (lines 205-209). -/
  | resumeBeginWait (s : Sys) :
      s.core.execMode = .Suspending →
      (s.core.resetRecompilers || s.core.resetProfilers) = true →
      Step s { s with waitingResumers := s.waitingResumers + 1 }
  /-- A parked `Resume` caller wakes (consuming a suspend-event post) and
  runs the unlocked tail of `Resume` (lines 218-229).  The source's
  `DevAssert` there is a development-build diagnostic only; the release
  code proceeds regardless, as modelled here. -/
  | resumeWakeFinish (s : Sys) :
      0 < s.waitingResumers → 0 < s.core.suspendPosts →
      Step s { s with
                 waitingResumers := s.waitingResumers - 1
               , core := resumeFinishBody
                   { s.core with suspendPosts := s.core.suspendPosts - 1 } }
  /-- `Resume` falling straight through the locked section (state neither
  `Running` nor `Suspending`) to the tail (lines 218-229). -/
  | resumeDirectFinish (s : Sys) :
      s.core.execMode = .Suspended ∨ s.core.execMode = .Idle →
      Step s { s with core := resumeFinishBody s.core }
  /-- `Suspend` early return when already `Suspended` or `Idle`
  (lines 249-250). -/
  | suspendReturn (s : Sys) :
      s.core.execMode = .Suspended ∨ s.core.execMode = .Idle → Step s s
  /-- `Suspend` sets `Suspending` from `Running` and the caller parks on
  the suspend event (lines 252-258). -/
  | suspendBegin (s : Sys) :
      s.core.execMode = .Running →
      Step s { s with
                 core := { s.core with execMode := .Suspending }
               , waitingSuspenders := s.waitingSuspenders + 1 }
  /-- `Suspend` finding the mode already `Suspending` (a concurrent
  suspender raced ahead): no mode change, the caller parks too. -/
  | suspendBeginAlready (s : Sys) :
      s.core.execMode = .Suspending →
      Step s { s with waitingSuspenders := s.waitingSuspenders + 1 }
  /-- A parked `Suspend` caller wakes, consuming a suspend-event post
  (line 258), and returns. -/
  | suspendWake (s : Sys) :
      0 < s.waitingSuspenders → 0 < s.core.suspendPosts →
      Step s { s with
                 waitingSuspenders := s.waitingSuspenders - 1
               , core := { s.core with
                             suspendPosts := s.core.suspendPosts - 1 } }
  /-- `ExecuteTask`'s initial loop observes `Running` and proceeds to the
  run loop's safe points (lines 122-129). -/
  | execStart (s : Sys) :
      s.execpc = .start → s.core.execMode = .Running →
      Step s { s with execpc := .safe }
  /-- `ExecuteTask`'s initial loop consumes a resume-event post while the
  mode is still not `Running` (lines 122-125). -/
  | execStartConsume (s : Sys) :
      s.execpc = .start → s.core.execMode ≠ .Running →
      0 < s.core.resumePosts →
      Step s { s with
                 core := { s.core with
                             resumePosts := s.core.resumePosts - 1 } }
  /-- `StateCheck` in the `Running` case: proceed (lines 145-147). -/
  | execSafeRunning (s : Sys) :
      s.execpc = .safe → s.core.execMode = .Running → Step s s
  /-- `StateCheck` in the `Suspending` case: under the lock, transition to
  `Suspended` and post the suspend-completion event (lines 149-154). -/
  | execSafeSuspending (s : Sys) :
      s.execpc = .safe → s.core.execMode = .Suspending →
      Step s { s with
                 core := { s.core with
                             execMode := .Suspended
                           , suspendPosts := s.core.suspendPosts + 1 } }
  /-- `StateCheck` in the `Suspended` wait loop: consume a resume-event
  post while still `Suspended` (lines 156-158). -/
  | execSafeSuspendedConsume (s : Sys) :
      s.execpc = .safe → s.core.execMode = .Suspended →
      0 < s.core.resumePosts →
      Step s { s with
                 core := { s.core with
                             resumePosts := s.core.resumePosts - 1 } }

/-- The initial system state: the constructor (lines 163-173) sets
`ExecMode_Idle`, both reset flags `false`, and starts the thread, which
parks in `ExecuteTask`'s initial wait. -/
def initSys : Sys :=
  { core := { execMode := .Idle
            , resetRecompilers := false
            , resetProfilers := false
            , resumePosts := 0
            , suspendPosts := 0
            , cacheClears := 0
            , config := cfg0 }
  , waitingSuspenders := 0
  , waitingResumers := 0
  , execpc := .start }

/-- Reachability from the initial state. -/
def SysReach (s : Sys) : Prop := Relation.ReflTransGen Step initSys s

/-- The situation `StateCheck`'s `ExecMode_Idle` branch (lines 138-142)
would observe: the execution thread is at a safe point while the mode is
`Idle`.  The source treats this as a fatal assertion. -/
def ObservesIdleAtSafePoint (s : Sys) : Prop :=
  s.execpc = .safe ∧ s.core.execMode = .Idle

/-! ### Byte-level snapshot codec

Buffers (`SafeArray<u8>`) are byte lists; reads past the end yield 0.
`u32` fields are little-endian, as produced by storing a `u32` on the
x86 targets the source compiles for. -/

/-- Byte of a buffer at an offset (`GetPtr(i)` dereference). -/
def byteAt (l : List Nat) (i : Nat) : Nat := l.getD i 0

/-- The four little-endian bytes of a stored `u32`. -/
def u32Bytes (n : Nat) : List Nat :=
  [n % 256, n / 256 % 256, n / 65536 % 256, n / 16777216 % 256]

/-- Reading a `u32` at a byte offset (`*((u32*)GetPtr(i))`). -/
def readU32At (l : List Nat) (i : Nat) : Nat :=
  byteAt l i + 256 * byteAt l (i + 1) + 65536 * byteAt l (i + 2) +
    16777216 * byteAt l (i + 3)

/-- Reading `n` consecutive bytes at offset `i` (`memcpy` source). -/
def readBytesAt (l : List Nat) (i n : Nat) : List Nat :=
  match n with
  | 0 => []
  | n + 1 => byteAt l i :: readBytesAt l (i + 1) n

/-- Overwriting the 4 bytes at offset `i` with a `u32` (the back-patch
`*(s32*)GetPtr(oldmidx) = len`). -/
def patchU32At (l : List Nat) (i n : Nat) : List Nat :=
  l.take i ++ u32Bytes n ++ l.drop (i + 4)

/-- Modelled from the spec: the generic subsystem record written by the
base codec's `FreezePlugin` (`memSavingState::FreezePlugin`, external to
this repository): a `u32` payload length followed by the payload bytes
(spec section 3). -/
def pluginRecord (p : List Nat) : List Nat := u32Bytes p.length ++ p

/-- `JustGsSavingState::gsFreeze` (lines 279-289 of the recovery file):
remember `oldmidx`, advance the cursor 4 bytes past the reserved length
slot, run the base `gsFreeze` pass (modelled from the spec as appending the
supplemental GS payload bytes), then back-patch the reserved slot with
`(m_idx - oldmidx) - 4`, the number of payload bytes actually written.
The cursor `m_idx` is the end of `buf` throughout, so the reserved slot is
modelled as four placeholder bytes that the patch overwrites. -/
def justGsGsFreeze (buf gsPayload : List Nat) : List Nat :=
  let oldmidx := buf.length
  let written := (buf ++ [0, 0, 0, 0]) ++ gsPayload
  patchU32At written oldmidx (written.length - oldmidx - 4)

/-- `StateRecovery::MakeGsOnly` (lines 156-165) buffer contents: the
freshly allocated `g_gsRecoveryState` receives the GS generic plugin
record (`eddie.FreezePlugin("GS", gsSafeFreeze)`) followed by the
length-prefixed raw continuation block (`eddie.gsFreeze()`). -/
def makeGsOnlyBytes (pluginPayload gsPayload : List Nat) : List Nat :=
  justGsGsFreeze (pluginRecord pluginPayload) gsPayload

/-- `RecoveryMemSavingState::gsFreeze` (lines 208-222) reading side: with a
partial buffer `B` present it reads `pluginlen` at offset 0, `gslen` at
`pluginlen + 4`, and copies `gslen` bytes starting at `pluginlen + 8`. -/
def recoveryMemGsCopied (B : List Nat) : List Nat :=
  readBytesAt B (readU32At B 0 + 8) (readU32At B (readU32At B 0 + 4))

/-- `RecoveryZipSavingState::gsFreeze` (lines 242-258) writing side: it
reads the same `pluginlen` and `gslen` but passes `GetPtr(pluginlen+4)` to
`gzwrite`, i.e. it emits `gslen` bytes starting at the length-prefix
offset `pluginlen + 4`. -/
def recoveryZipGsWritten (B : List Nat) : List Nat :=
  readBytesAt B (readU32At B 0 + 4) (readU32At B (readU32At B 0 + 4))

/-- The partial-buffer thaw path of `StateRecovery::Recover`
(lines 89-98): `eddie.FreezePlugin("GS", gsSafeFreeze)` reads the generic
plugin record (modelled from the spec's record format), `eddie.Freeze(
dummylen )` reads the raw-continuation length recorded earlier, and
`eddie.gsFreeze()` consumes that block's payload.  Returns (plugin payload,
continuation length, continuation payload). -/
def gsOnlyThaw (B : List Nat) : List Nat × Nat × List Nat :=
  let plen := readU32At B 0
  let blen := readU32At B (plen + 4)
  (readBytesAt B 4 plen, blen, readBytesAt B (plen + 8) blen)

/-! ### Recovery Store (`namespace StateRecovery`) -/

/-- The recovery engine's state: the two global buffers, whether an
emulation session is active (`EmulationInProgress()`), the live machine
data a freeze pass would serialize (CPU/memory region and the GS plugin /
GS supplemental payloads a live query would return, abstracted as byte
lists), and effect counters: `SysSuspend`/`SysResume` calls,
`SysClearExecutionCache` calls, `Msgbox::Alert` warnings, and how many
full/partial thaws were performed. -/
structure RState where
  recoveryState : Option (List Nat)
  gsRecoveryState : Option (List Nat)
  emulationInProgress : Bool
  cpuMemBytes : List Nat
  livePluginBytes : List Nat
  liveGsBytes : List Nat
  suspendCalls : Nat
  resumeCalls : Nat
  cacheClears : Nat
  alerts : Nat
  thawFull : Nat
  thawGs : Nat
deriving DecidableEq, Repr

namespace StateRecovery

/-- `StateRecovery::HasState` (lines 74-77). -/
def HasState (s : RState) : Bool :=
  s.recoveryState.isSome || s.gsRecoveryState.isSome

/-- `StateRecovery::Clear` (lines 197-201): release both buffers. -/
def Clear (s : RState) : RState :=
  { s with recoveryState := none, gsRecoveryState := none }

/-- The buffer produced by `RecoveryMemSavingState(...).FreezeAll()`: the
CPU/memory region, then the GS generic record — copied verbatim from the
partial buffer when one exists (`RecoveryMemSavingState::FreezePlugin`,
lines 224-236, copies `len + 4` bytes from offset 0), else the live
query's record — then the GS supplemental pass — copied from the partial
buffer when one exists (`RecoveryMemSavingState::gsFreeze`, lines 208-222),
else the live supplemental bytes.  The surrounding full-machine traversal
(other subsystem records) is modelled from the spec and folded into
`cpuMemBytes`. -/
def recoveryFreezeAllImage (s : RState) : List Nat :=
  s.cpuMemBytes ++
    (match s.gsRecoveryState with
     | some b => readBytesAt b 0 (readU32At b 0 + 4)
     | none => pluginRecord s.livePluginBytes) ++
    (match s.gsRecoveryState with
     | some b => recoveryMemGsCopied b
     | none => s.liveGsBytes)

/-- `StateRecovery::MakeFull` (lines 171-194).  `freezeOk` selects whether
`RecoveryMemSavingState().FreezeAll()` completes or raises
`Exception::RuntimeError`.  Note the source calls `SysSuspend()` but never
`SysResume()` on any path.  On success the partial buffer is deleted after
the freeze pass (which may still have read it); on failure the caller is
alerted and the partially-written full buffer is deleted, the partial
buffer being left alone. -/
def MakeFull (freezeOk : Bool) (s : RState) : RState :=
  if s.recoveryState.isSome then s
  else if !s.emulationInProgress then s
  else
    let s1 := { s with suspendCalls := s.suspendCalls + 1 }
    if freezeOk then
      { s1 with
          recoveryState := some (recoveryFreezeAllImage s1)
        , gsRecoveryState := none }
    else
      { s1 with recoveryState := none, alerts := s1.alerts + 1 }

/-- `StateRecovery::MakeGsOnly` (lines 156-165): clear everything, no-op if
no session is active, otherwise capture just the GS subsystem into a new
partial buffer. -/
def MakeGsOnly (s : RState) : RState :=
  let s1 := Clear s
  if !s1.emulationInProgress then s1
  else
    { s1 with
        gsRecoveryState :=
          some (makeGsOnlyBytes s.livePluginBytes s.liveGsBytes) }

/-- `StateRecovery::Recover` (lines 79-105): thaw the full buffer if
present, else the partial buffer if present, else nothing; in every case
`StateRecovery::Clear()` then `SysClearExecutionCache()` run
unconditionally. -/
def Recover (s : RState) : RState :=
  let s1 :=
    match s.recoveryState with
    | some _ => { s with thawFull := s.thawFull + 1 }
    | none =>
      match s.gsRecoveryState with
      | some _ => { s with thawGs := s.thawGs + 1 }
      | none => s
  let s2 := Clear s1
  { s2 with cacheClears := s2.cacheClears + 1 }

/-- Modelled from the spec: the savestate format-version constant
`g_SaveVersion` lives in the external savestate codec; only its role as
the leading `u32` of a persisted file matters here. -/
def g_SaveVersion : Nat := 4

/-- What `StateRecovery::SaveToFile` did, beyond its state effects. -/
inductive SaveOutcome where
  | wroteFile (bytes : List Nat)
  | nullDeref
deriving DecidableEq, Repr

/-- `StateRecovery::SaveToFile` (lines 115-141): `SysSuspend()`; then, when
`g_RecoveryState == NULL`, the source constructs
`RecoveryMemSavingState()`, whose constructor (line 204) binds
`memSavingState( *g_RecoveryState )` — a dereference of the null pointer,
modelled as the `nullDeref` outcome.  When a full buffer exists, the
freeze branch is skipped, `SysResume()` runs, and the file
`[u32 g_SaveVersion][buffer bytes]` is written through the gzip stream. -/
def SaveToFile (s : RState) : RState × SaveOutcome :=
  let s1 := { s with suspendCalls := s.suspendCalls + 1 }
  match s1.recoveryState with
  | none => (s1, .nullDeref)
  | some buf =>
    let s2 := { s1 with resumeCalls := s1.resumeCalls + 1 }
    (s2, .wroteFile (u32Bytes g_SaveVersion ++ buf))

end StateRecovery

/-! ### Codec lemmas -/

theorem byteAt_cons_succ (a : Nat) (l : List Nat) (i : Nat) :
    byteAt (a :: l) (i + 1) = byteAt l i := by
  simp [byteAt, List.getD]

theorem byteAt_append_right (l m : List Nat) (i : Nat) :
    byteAt (l ++ m) (l.length + i) = byteAt m i := by
  unfold byteAt
  rw [List.getD_append_right l m 0 (l.length + i) (Nat.le_add_right _ _)]
  congr 1
  omega

theorem readBytesAt_cons (a : Nat) (l : List Nat) (i n : Nat) :
    readBytesAt (a :: l) (i + 1) n = readBytesAt l i n := by
  induction n generalizing i with
  | zero => rfl
  | succ n ih =>
    simp only [readBytesAt, byteAt_cons_succ]
    rw [ih]

theorem readBytesAt_front (m r : List Nat) :
    readBytesAt (m ++ r) 0 m.length = m := by
  induction m with
  | nil => rfl
  | cons a m ih =>
    simp only [List.cons_append, List.length_cons, readBytesAt]
    rw [readBytesAt_cons, ih]
    simp [byteAt]

theorem readBytesAt_append_right (l m : List Nat) (i n : Nat) :
    readBytesAt (l ++ m) (l.length + i) n = readBytesAt m i n := by
  induction n generalizing i with
  | zero => rfl
  | succ n ih =>
    simp only [readBytesAt, byteAt_append_right]
    have : l.length + i + 1 = l.length + (i + 1) := by omega
    rw [this, ih]

theorem readU32At_append_right (l m : List Nat) :
    readU32At (l ++ m) l.length = readU32At m 0 := by
  unfold readU32At
  have h0 : l.length = l.length + 0 := by omega
  rw [h0]
  rw [byteAt_append_right l m 0]
  have h1 : l.length + 0 + 1 = l.length + 1 := by omega
  rw [h1, byteAt_append_right l m 1]
  have h2 : l.length + 0 + 2 = l.length + 2 := by omega
  rw [h2, byteAt_append_right l m 2]
  have h3 : l.length + 0 + 3 = l.length + 3 := by omega
  rw [h3, byteAt_append_right l m 3]

theorem length_u32Bytes (n : Nat) : (u32Bytes n).length = 4 := rfl

theorem readU32At_u32Bytes_front (n : Nat) (rest : List Nat)
    (h : n < 4294967296) :
    readU32At (u32Bytes n ++ rest) 0 = n := by
  have h0 : byteAt (u32Bytes n ++ rest) 0 = n % 256 := rfl
  have h1 : byteAt (u32Bytes n ++ rest) 1 = n / 256 % 256 := rfl
  have h2 : byteAt (u32Bytes n ++ rest) 2 = n / 65536 % 256 := rfl
  have h3 : byteAt (u32Bytes n ++ rest) 3 = n / 16777216 % 256 := rfl
  unfold readU32At
  rw [show (0 : Nat) + 1 = 1 from rfl, show (0 : Nat) + 2 = 2 from rfl,
    show (0 : Nat) + 3 = 3 from rfl, h0, h1, h2, h3]
  omega

theorem justGsGsFreeze_eq (buf g : List Nat) :
    justGsGsFreeze buf g = buf ++ u32Bytes g.length ++ g := by
  show ((buf ++ [0, 0, 0, 0]) ++ g).take buf.length ++
      u32Bytes (((buf ++ [0, 0, 0, 0]) ++ g).length - buf.length - 4) ++
      ((buf ++ [0, 0, 0, 0]) ++ g).drop (buf.length + 4)
    = buf ++ u32Bytes g.length ++ g
  have hlen : ((buf ++ [0, 0, 0, 0]) ++ g).length - buf.length - 4
      = g.length := by
    simp only [List.length_append, List.length_cons, List.length_nil]
    omega
  have htake : ((buf ++ [0, 0, 0, 0]) ++ g).take buf.length = buf := by
    rw [List.append_assoc]
    exact List.take_left' rfl
  have hdrop : ((buf ++ [0, 0, 0, 0]) ++ g).drop (buf.length + 4) = g := by
    apply List.drop_left'
    simp
  rw [hlen, htake, hdrop]

theorem makeGsOnlyBytes_eq (p g : List Nat) :
    makeGsOnlyBytes p g
      = u32Bytes p.length ++ p ++ u32Bytes g.length ++ g := by
  unfold makeGsOnlyBytes pluginRecord
  rw [justGsGsFreeze_eq]

theorem makeGsOnlyBytes_pluginLen (p g : List Nat)
    (hp : p.length < 4294967296) :
    readU32At (makeGsOnlyBytes p g) 0 = p.length := by
  rw [makeGsOnlyBytes_eq]
  rw [List.append_assoc, List.append_assoc]
  exact readU32At_u32Bytes_front p.length _ hp

theorem makeGsOnlyBytes_gsLen (p g : List Nat)
    (hg : g.length < 4294967296) :
    readU32At (makeGsOnlyBytes p g) (p.length + 4) = g.length := by
  rw [makeGsOnlyBytes_eq]
  rw [List.append_assoc (u32Bytes p.length ++ p) (u32Bytes g.length) g]
  have hfront : p.length + 4 = (u32Bytes p.length ++ p).length := by
    rw [List.length_append, length_u32Bytes]
    omega
  rw [hfront, readU32At_append_right]
  exact readU32At_u32Bytes_front g.length g hg

theorem makeGsOnlyBytes_pluginPayload (p g : List Nat) :
    readBytesAt (makeGsOnlyBytes p g) 4 p.length = p := by
  rw [makeGsOnlyBytes_eq]
  rw [List.append_assoc, List.append_assoc]
  have h4 : (4 : Nat) = (u32Bytes p.length).length + 0 := by
    rw [length_u32Bytes]
  rw [h4, readBytesAt_append_right]
  show readBytesAt (p ++ (u32Bytes g.length ++ g)) 0 p.length = p
  exact readBytesAt_front p _

theorem makeGsOnlyBytes_gsPayload (p g : List Nat) :
    readBytesAt (makeGsOnlyBytes p g) (p.length + 8) g.length = g := by
  rw [makeGsOnlyBytes_eq]
  have hfront : p.length + 8
      = (u32Bytes p.length ++ p ++ u32Bytes g.length).length + 0 := by
    simp only [List.length_append, length_u32Bytes]
    omega
  rw [hfront, readBytesAt_append_right]
  have := readBytesAt_front g ([] : List Nat)
  simpa using this

/-! ### Protocol lemmas -/

theorem resumeFinishBody_execMode (c : CoreState) :
    (resumeFinishBody c).execMode = .Running := by
  unfold resumeFinishBody
  split <;> rfl

theorem resumeFinishBody_suspendPosts (c : CoreState) :
    (resumeFinishBody c).suspendPosts = c.suspendPosts := by
  unfold resumeFinishBody
  split <;> rfl

/-- The suspend-completion event is posted only by the execution thread's
safe-point transition into `Suspended`: any step that increases the
pending suspend-event count ends with the mode `Suspended`.  This is why
a caller parked on that event resumes only once the execution thread has
reached `Suspended`. -/
theorem suspend_event_posted_only_at_suspended {s t : Sys} (h : Step s t)
    (hlt : s.core.suspendPosts < t.core.suspendPosts) :
    t.core.execMode = .Suspended ∧
    t.core.suspendPosts = s.core.suspendPosts + 1 := by
  cases h with
  | applySettings src => exact absurd hlt (Nat.lt_irrefl _)
  | resumeNoop h1 => exact absurd hlt (Nat.lt_irrefl _)
  | resumeRescind h1 h2 => exact absurd hlt (Nat.lt_irrefl _)
  | resumeBeginWait h1 h2 => exact absurd hlt (Nat.lt_irrefl _)
  | resumeWakeFinish h1 h2 =>
    exfalso
    have hlt2 : s.core.suspendPosts < s.core.suspendPosts - 1 := by
      simpa [resumeFinishBody_suspendPosts] using hlt
    omega
  | resumeDirectFinish h1 =>
    exfalso
    have hlt2 : s.core.suspendPosts < s.core.suspendPosts := by
      simpa [resumeFinishBody_suspendPosts] using hlt
    omega
  | suspendReturn h1 => exact absurd hlt (Nat.lt_irrefl _)
  | suspendBegin h1 => exact absurd hlt (Nat.lt_irrefl _)
  | suspendBeginAlready h1 => exact absurd hlt (Nat.lt_irrefl _)
  | suspendWake h1 h2 =>
    exfalso
    have hlt2 : s.core.suspendPosts < s.core.suspendPosts - 1 := hlt
    omega
  | execStart h1 h2 => exact absurd hlt (Nat.lt_irrefl _)
  | execStartConsume h1 h2 h3 => exact absurd hlt (Nat.lt_irrefl _)
  | execSafeRunning h1 h2 => exact absurd hlt (Nat.lt_irrefl _)
  | execSafeSuspending h1 h2 => exact ⟨rfl, rfl⟩
  | execSafeSuspendedConsume h1 h2 h3 => exact absurd hlt (Nat.lt_irrefl _)

/-- No transition of the protocol ever sets the mode back to `Idle`:
`Idle` is only the constructor-time value. -/
theorem step_mode_not_idle {s t : Sys} (h : Step s t)
    (hs : s.core.execMode ≠ .Idle) : t.core.execMode ≠ .Idle := by
  cases h with
  | applySettings src => exact hs
  | resumeNoop h1 => exact hs
  | resumeRescind h1 h2 => intro hc; cases hc
  | resumeBeginWait h1 h2 => exact hs
  | resumeWakeFinish h1 h2 =>
    show (resumeFinishBody _).execMode ≠ ExecMode.Idle
    rw [resumeFinishBody_execMode]
    intro hc; cases hc
  | resumeDirectFinish h1 =>
    show (resumeFinishBody _).execMode ≠ ExecMode.Idle
    rw [resumeFinishBody_execMode]
    intro hc; cases hc
  | suspendReturn h1 => exact hs
  | suspendBegin h1 => intro hc; cases hc
  | suspendBeginAlready h1 => exact hs
  | suspendWake h1 h2 => exact hs
  | execStart h1 h2 => exact hs
  | execStartConsume h1 h2 h3 => exact hs
  | execSafeRunning h1 h2 => exact hs
  | execSafeSuspending h1 h2 => intro hc; cases hc
  | execSafeSuspendedConsume h1 h2 h3 => exact hs

/-- One step preserves the safety invariant "whenever the execution thread
is at a safe point, the mode is not `Idle`". -/
theorem step_safe_not_idle {s t : Sys} (h : Step s t)
    (hs : s.execpc = .safe → s.core.execMode ≠ .Idle) :
    t.execpc = .safe → t.core.execMode ≠ .Idle := by
  cases h with
  | execStart h1 h2 =>
    intro _ hc
    exact absurd (h2.symm.trans hc) (by intro hcc; cases hcc)
  | applySettings src => exact hs
  | resumeNoop h1 => exact hs
  | resumeRescind h1 h2 => intro _ hc; cases hc
  | resumeBeginWait h1 h2 => exact hs
  | resumeWakeFinish h1 h2 =>
    intro _
    show (resumeFinishBody _).execMode ≠ ExecMode.Idle
    rw [resumeFinishBody_execMode]
    intro hc; cases hc
  | resumeDirectFinish h1 =>
    intro _
    show (resumeFinishBody _).execMode ≠ ExecMode.Idle
    rw [resumeFinishBody_execMode]
    intro hc; cases hc
  | suspendReturn h1 => exact hs
  | suspendBegin h1 => intro _ hc; cases hc
  | suspendBeginAlready h1 => exact hs
  | suspendWake h1 h2 => exact hs
  | execStartConsume h1 h2 h3 => exact hs
  | execSafeRunning h1 h2 => exact hs
  | execSafeSuspending h1 h2 => intro _ hc; cases hc
  | execSafeSuspendedConsume h1 h2 h3 => exact hs

/-- The safety invariant holds in every reachable state. -/
theorem reach_safe_not_idle {s : Sys} (h : SysReach s) :
    s.execpc = .safe → s.core.execMode ≠ .Idle := by
  induction h with
  | refl => intro hp; cases hp
  | tail hab hbc ih => exact step_safe_not_idle hbc ih

/-- Claim C1 (amended).  For every reachable state of the
suspend/resume protocol: the execution thread never observes `Idle` at a
safe-point check (`StateCheck`'s fatal-assertion branch is unreachable),
and every exit from `Suspending` either is the execution thread's
safe-point transition to `Suspended`, which also signals the
suspend-completion event, or goes directly to `Running` through a
`Resume` call (the no-reset rescission, or a blocked `Resume` finishing). -/
theorem claim1_suspend_resume_protocol (s t : Sys)
    (hreach : SysReach s) (hstep : Step s t) :
    ¬ ObservesIdleAtSafePoint t ∧
    (s.core.execMode = .Suspending → t.core.execMode ≠ .Suspending →
      (t.core.execMode = .Suspended ∧
        t.core.suspendPosts = s.core.suspendPosts + 1) ∨
      t.core.execMode = .Running) := by
  constructor
  · intro hobs
    exact reach_safe_not_idle (Relation.ReflTransGen.tail hreach hstep)
      hobs.1 hobs.2
  · intro hS hne
    cases hstep with
    | applySettings src => exact absurd hS hne
    | resumeNoop h1 => exact absurd hS hne
    | resumeRescind h1 h2 => exact Or.inr rfl
    | resumeBeginWait h1 h2 => exact absurd hS hne
    | resumeWakeFinish h1 h2 => exact Or.inr (resumeFinishBody_execMode _)
    | resumeDirectFinish h1 =>
      rw [hS] at h1
      rcases h1 with h1 | h1 <;> cases h1
    | suspendReturn h1 =>
      rw [hS] at h1
      rcases h1 with h1 | h1 <;> cases h1
    | suspendBegin h1 => rw [hS] at h1; cases h1
    | suspendBeginAlready h1 => exact absurd hS hne
    | suspendWake h1 h2 => exact absurd hS hne
    | execStart h1 h2 => rw [hS] at h2; cases h2
    | execStartConsume h1 h2 h3 => exact absurd hS hne
    | execSafeRunning h1 h2 => rw [hS] at h2; cases h2
    | execSafeSuspending h1 h2 => exact Or.inl ⟨rfl, rfl⟩
    | execSafeSuspendedConsume h1 h2 h3 => rw [hS] at h2; cases h2

/-- The state after the very first `Resume` from the constructor-time
state: the tail of `Resume` runs (no flags set), mode becomes `Running`
and the resume event is posted. -/
def sysAfterFirstResume : Sys :=
  { initSys with core := resumeFinishBody initSys.core }

/-- Witness for `claim1_suspend_resume_protocol` at the first `Resume`
step from the initial state. -/
theorem claim1_suspend_resume_protocol_witness :
    ¬ ObservesIdleAtSafePoint sysAfterFirstResume ∧
    (initSys.core.execMode = .Suspending →
      sysAfterFirstResume.core.execMode ≠ .Suspending →
      (sysAfterFirstResume.core.execMode = .Suspended ∧
        sysAfterFirstResume.core.suspendPosts =
          initSys.core.suspendPosts + 1) ∨
      sysAfterFirstResume.core.execMode = .Running) :=
  claim1_suspend_resume_protocol initSys sysAfterFirstResume
    Relation.ReflTransGen.refl
    (Step.resumeDirectFinish initSys (Or.inr rfl))

/-- A reachable state in which a `Suspend` request is in flight
(`Suspending`, the suspender parked on the suspend event) and no reset is
pending. -/
def cexSuspending : Sys :=
  { core := { execMode := .Suspending
            , resetRecompilers := false
            , resetProfilers := false
            , resumePosts := 1
            , suspendPosts := 0
            , cacheClears := 0
            , config := cfg0 }
  , waitingSuspenders := 1
  , waitingResumers := 0
  , execpc := .start }

/-- The state after a concurrent `Resume` rescinds that suspend. -/
def cexRunningAfter : Sys :=
  { cexSuspending with
      core := { cexSuspending.core with execMode := .Running } }

/-- Counterexample to claim C1 as stated: from a reachable `Suspending`
state (resume; suspend begins from a second control thread), a `Resume`
from a third control thread with no reset pending moves the state directly
to `Running` in one transition — no `Suspended` state and no
suspend-completion signal ever intervene. -/
theorem claim1_suspending_to_running_direct :
    SysReach cexSuspending ∧
    cexSuspending.core.execMode = .Suspending ∧
    Step cexSuspending cexRunningAfter ∧
    cexRunningAfter.core.execMode = .Running ∧
    cexRunningAfter.core.suspendPosts = cexSuspending.core.suspendPosts ∧
    cexSuspending.core.suspendPosts = 0 := by
  refine ⟨?_, rfl, Step.resumeRescind cexSuspending rfl rfl, rfl, rfl, rfl⟩
  have h1 : Step initSys sysAfterFirstResume :=
    Step.resumeDirectFinish initSys (Or.inr rfl)
  have h2 : Step sysAfterFirstResume cexSuspending :=
    Step.suspendBegin sysAfterFirstResume rfl
  exact Relation.ReflTransGen.tail
    (Relation.ReflTransGen.tail Relation.ReflTransGen.refl h1) h2

/-! ### Functional claims on the controller -/

/-- A `Running` controller state with nothing pending, for witnesses. -/
def runningState : CoreState :=
  { execMode := .Running
  , resetRecompilers := false
  , resetProfilers := false
  , resumePosts := 0
  , suspendPosts := 0
  , cacheClears := 0
  , config := cfg0 }

/-- Claim C2 (the code contradicts it): `Suspend` called from a
non-execution thread on a live `Running` controller with
`isBlocking = false` still ends in `m_SuspendEvent.WaitGui()` — the
`isBlocking` parameter is never consulted, so the caller is blocked even
in the supposedly non-blocking mode; moreover the result is identical to
the `isBlocking = true` call. -/
theorem claim2_nonblocking_suspend_still_waits :
    CoreSuspend false true false runningState
      = ({ runningState with execMode := .Suspending }, .waits) ∧
    CoreSuspend false true false runningState
      = CoreSuspend false true true runningState := by
  constructor <;> rfl

/-- Claim C4: `Resume` finding the state `Suspending` under the lock: with
a reset flag pending it changes nothing and proceeds to block on the
suspend-completion event; with no reset pending it flips the state back to
`Running` and returns at once — no event posted, no other field
modified. -/
theorem claim4_resume_suspending_branches (s : CoreState)
    (h : s.execMode = .Suspending) :
    ((s.resetRecompilers || s.resetProfilers) = true →
      CoreResume false true s = (s, .blockedOnSuspendEvent)) ∧
    ((s.resetRecompilers || s.resetProfilers) = false →
      CoreResume false true s
        = ({ s with execMode := .Running }, .rescinded)) := by
  constructor <;> intro hflags <;>
    simp [CoreResume, h, hflags]

/-- A `Suspending` controller state with a recompiler reset pending. -/
def suspPending : CoreState :=
  { runningState with execMode := .Suspending, resetRecompilers := true }

/-- Witness for `claim4_resume_suspending_branches` at a concrete
`Suspending` state with a recompiler reset pending. -/
theorem claim4_witness :
    ((suspPending.resetRecompilers || suspPending.resetProfilers) = true →
      CoreResume false true suspPending
        = (suspPending, .blockedOnSuspendEvent)) ∧
    ((suspPending.resetRecompilers || suspPending.resetProfilers) = false →
      CoreResume false true suspPending
        = ({ suspPending with execMode := .Running }, .rescinded)) :=
  claim4_resume_suspending_branches suspPending rfl

/-- Claim C5: `Resume` called from a non-execution thread while already
`Running` returns with the state exactly unchanged: no event posts, no
mode change, no reset-flag change, no execution-cache clear, no
configuration change. -/
theorem claim5_resume_running_noop (s : CoreState)
    (h : s.execMode = .Running) :
    CoreResume false true s = (s, .noop) := by
  simp [CoreResume, h]

/-- Witness for `claim5_resume_running_noop`. -/
theorem claim5_witness :
    CoreResume false true runningState = (runningState, .noop) :=
  claim5_resume_running_noop runningState rfl

/-- Claim C6: `ApplySettings` with a configuration differing from the
active one only in the profiler group sets `m_resetProfilers`, leaves
`m_resetRecompilers` `false`, and unconditionally replaces `EmuConfig`;
the next `Resume` that reaches a `Suspended` or `Idle` state clears the
execution cache exactly once and clears both flags, ending `Running`. -/
theorem claim6_profiler_only_settings (src : Pcsx2Config) (s : CoreState)
    (hcpu : src.cpu = s.config.cpu)
    (hgf : src.gamefixes = s.config.gamefixes)
    (hsh : src.speedhacks = s.config.speedhacks)
    (hprof : src.profiler ≠ s.config.profiler)
    (hmode : s.execMode = .Suspended ∨ s.execMode = .Idle) :
    (CoreApplySettings src s).resetProfilers = true ∧
    (CoreApplySettings src s).resetRecompilers = false ∧
    (CoreApplySettings src s).config = src ∧
    (CoreResume false true (CoreApplySettings src s)).1.cacheClears
      = s.cacheClears + 1 ∧
    (CoreResume false true (CoreApplySettings src s)).1.resetRecompilers
      = false ∧
    (CoreResume false true (CoreApplySettings src s)).1.resetProfilers
      = false ∧
    (CoreResume false true (CoreApplySettings src s)).1.execMode
      = .Running := by
  have happ : CoreApplySettings src s
      = { s with resetRecompilers := false, resetProfilers := true,
                 config := src } := by
    simp [CoreApplySettings, hcpu, hgf, hsh, bne_eq_false_iff_eq, hprof]
  rcases hmode with hmode | hmode <;>
    simp [happ, CoreResume, resumeFinishBody, hmode]

/-- Witness for `claim6_profiler_only_settings` at a concrete `Suspended`
state and a profiler-only configuration change. -/
theorem claim6_witness :
    (CoreApplySettings ⟨0, 0, 0, 1⟩
        { runningState with execMode := .Suspended }).resetProfilers
      = true ∧
    (CoreApplySettings ⟨0, 0, 0, 1⟩
        { runningState with execMode := .Suspended }).resetRecompilers
      = false ∧
    (CoreApplySettings ⟨0, 0, 0, 1⟩
        { runningState with execMode := .Suspended }).config
      = ⟨0, 0, 0, 1⟩ ∧
    (CoreResume false true (CoreApplySettings ⟨0, 0, 0, 1⟩
        { runningState with execMode := .Suspended })).1.cacheClears
      = ({ runningState with execMode := .Suspended } : CoreState).cacheClears
          + 1 ∧
    (CoreResume false true (CoreApplySettings ⟨0, 0, 0, 1⟩
        { runningState with execMode := .Suspended })).1.resetRecompilers
      = false ∧
    (CoreResume false true (CoreApplySettings ⟨0, 0, 0, 1⟩
        { runningState with execMode := .Suspended })).1.resetProfilers
      = false ∧
    (CoreResume false true (CoreApplySettings ⟨0, 0, 0, 1⟩
        { runningState with execMode := .Suspended })).1.execMode
      = .Running :=
  claim6_profiler_only_settings ⟨0, 0, 0, 1⟩
    { runningState with execMode := .Suspended }
    rfl rfl rfl (by decide) (Or.inl rfl)

/-! ### Recovery Store claims -/

/-- A recovery-store state with an active session and no buffers. -/
def liveStore : RState :=
  { recoveryState := none
  , gsRecoveryState := none
  , emulationInProgress := true
  , cpuMemBytes := [17, 18]
  , livePluginBytes := [7, 7]
  , liveGsBytes := [1, 2, 3, 4, 5, 6, 7, 8]
  , suspendCalls := 0
  , resumeCalls := 0
  , cacheClears := 0
  , alerts := 0
  , thawFull := 0
  , thawGs := 0 }

/-- That state with a partial (GS-only) buffer present. -/
def liveStoreGs : RState :=
  { liveStore with gsRecoveryState := some [9, 9, 9, 9] }

/-- That state with no session active and no buffers. -/
def emptyStore : RState := { liveStore with emulationInProgress := false }

/-- Counterexample to claim C3 as stated: `MakeFull` on an active session
with no full buffer (here: a partial buffer present) suspends the
emulation thread (`SysSuspend` is called once) but never calls
`SysResume` — the claim's "resumes the emulation thread before returning"
does not happen. -/
theorem claim3_makefull_does_not_resume :
    (StateRecovery.MakeFull true liveStoreGs).resumeCalls = 0 ∧
    (StateRecovery.MakeFull true liveStoreGs).suspendCalls = 1 ∧
    liveStoreGs.recoveryState = none ∧
    liveStoreGs.emulationInProgress = true := by
  refine ⟨?_, ?_, rfl, rfl⟩ <;> rfl

/-- Claim C3 (amended): `MakeFull` is a no-op when a full buffer already
exists or no session is active; otherwise it suspends the emulation
thread, serializes the machine into a newly created full buffer and
discards any partial buffer — but it does not resume the emulation thread
before returning (no `SysResume` call; the resumption is left to the
caller). -/
theorem claim3_makefull_behaviour (s : RState) :
    (s.recoveryState.isSome = true → StateRecovery.MakeFull true s = s) ∧
    (s.emulationInProgress = false → StateRecovery.MakeFull true s = s) ∧
    (s.recoveryState = none → s.emulationInProgress = true →
      StateRecovery.MakeFull true s
        = { s with
              suspendCalls := s.suspendCalls + 1
            , recoveryState := some (StateRecovery.recoveryFreezeAllImage
                { s with suspendCalls := s.suspendCalls + 1 })
            , gsRecoveryState := none }) := by
  refine ⟨?_, ?_, ?_⟩
  · intro h
    simp [StateRecovery.MakeFull, h]
  · intro h
    simp [StateRecovery.MakeFull, h]
  · intro h1 h2
    simp [StateRecovery.MakeFull, h1, h2]

/-- Witness for `claim3_makefull_behaviour` at the concrete state with a
partial buffer and an active session. -/
theorem claim3_witness :
    (liveStoreGs.recoveryState.isSome = true →
      StateRecovery.MakeFull true liveStoreGs = liveStoreGs) ∧
    (liveStoreGs.emulationInProgress = false →
      StateRecovery.MakeFull true liveStoreGs = liveStoreGs) ∧
    (liveStoreGs.recoveryState = none →
      liveStoreGs.emulationInProgress = true →
      StateRecovery.MakeFull true liveStoreGs
        = { liveStoreGs with
              suspendCalls := liveStoreGs.suspendCalls + 1
            , recoveryState := some (StateRecovery.recoveryFreezeAllImage
                { liveStoreGs with
                    suspendCalls := liveStoreGs.suspendCalls + 1 })
            , gsRecoveryState := none }) :=
  claim3_makefull_behaviour liveStoreGs

/-- Claim C8: when the freeze pass inside `MakeFull` raises a runtime
error, the partially-written full buffer is discarded (the slot is back
to absent), one non-fatal warning is surfaced (`Msgbox::Alert`), the
error does not propagate (the function returns a normal state), and the
session is left intact — still in progress, suspended once and hence
resumable, with every other field untouched. -/
theorem claim8_makefull_failure (s : RState)
    (h1 : s.recoveryState = none) (h2 : s.emulationInProgress = true) :
    StateRecovery.MakeFull false s
      = { s with suspendCalls := s.suspendCalls + 1
               , alerts := s.alerts + 1 } ∧
    (StateRecovery.MakeFull false s).recoveryState = none ∧
    (StateRecovery.MakeFull false s).emulationInProgress = true ∧
    (StateRecovery.MakeFull false s).gsRecoveryState
      = s.gsRecoveryState := by
  have : StateRecovery.MakeFull false s
      = { s with suspendCalls := s.suspendCalls + 1
               , alerts := s.alerts + 1, recoveryState := none } := by
    simp [StateRecovery.MakeFull, h1, h2]
  rw [this, h2]
  refine ⟨?_, rfl, rfl, rfl⟩
  rw [← h1]

/-- Witness for `claim8_makefull_failure` at the concrete live store. -/
theorem claim8_witness :
    StateRecovery.MakeFull false liveStore
      = { liveStore with
            suspendCalls := liveStore.suspendCalls + 1
          , alerts := liveStore.alerts + 1 } ∧
    (StateRecovery.MakeFull false liveStore).recoveryState = none ∧
    (StateRecovery.MakeFull false liveStore).emulationInProgress = true ∧
    (StateRecovery.MakeFull false liveStore).gsRecoveryState
      = liveStore.gsRecoveryState :=
  claim8_makefull_failure liveStore rfl rfl

/-- Claim C7 (the code contradicts it): with no full recovery buffer,
`SaveToFile` constructs `RecoveryMemSavingState`, whose constructor binds
a reference through the null `g_RecoveryState` pointer — it does not
perform the claimed no-op (session inactive) or suspend-and-serialize
(session active) paths; only the reuse-existing-buffer path works,
writing the `u32` version header followed by the buffer. -/
theorem claim7_savetofile_null_deref :
    (StateRecovery.SaveToFile emptyStore).2 = .nullDeref ∧
    emptyStore.recoveryState = none ∧
    emptyStore.gsRecoveryState = none ∧
    emptyStore.emulationInProgress = false ∧
    (StateRecovery.SaveToFile liveStore).2 = .nullDeref ∧
    (StateRecovery.SaveToFile
        { liveStore with recoveryState := some [5, 6] }).2
      = .wroteFile (u32Bytes StateRecovery.g_SaveVersion ++ [5, 6]) ∧
    (StateRecovery.SaveToFile
        { liveStore with recoveryState := some [5, 6] }).1
      = { liveStore with
            recoveryState := some [5, 6]
          , suspendCalls := liveStore.suspendCalls + 1
          , resumeCalls := liveStore.resumeCalls + 1 } := by
  refine ⟨rfl, rfl, rfl, rfl, rfl, rfl, ?_⟩
  rfl

/-- Claim C9: the single-subsystem writer reserves a 4-byte slot, writes
the payload, and back-patches the slot with the payload's true length;
the raw-continuation length prefix read back equals the payload size, the
partial-buffer thaw path of `Recover` reads back exactly the plugin and
continuation payloads, and `RecoveryMemSavingState::gsFreeze` copies
exactly the continuation payload.  The compressed-stream counterpart
`RecoveryZipSavingState::gsFreeze`, however, starts its copy at the
length-prefix offset (`pluginlen + 4` instead of `pluginlen + 8`), so at
a concrete snapshot it emits the 4 length bytes followed by a truncated
payload instead of the payload itself. -/
theorem claim9_gs_record_roundtrip (p g : List Nat)
    (hp : p.length < 4294967296) (hg : g.length < 4294967296) :
    makeGsOnlyBytes p g
      = u32Bytes p.length ++ p ++ u32Bytes g.length ++ g ∧
    readU32At (makeGsOnlyBytes p g) (p.length + 4) = g.length ∧
    gsOnlyThaw (makeGsOnlyBytes p g) = (p, g.length, g) ∧
    recoveryMemGsCopied (makeGsOnlyBytes p g) = g ∧
    recoveryZipGsWritten (makeGsOnlyBytes [7, 7] [1, 2, 3, 4, 5, 6, 7, 8])
      = [8, 0, 0, 0, 1, 2, 3, 4] ∧
    recoveryZipGsWritten (makeGsOnlyBytes [7, 7] [1, 2, 3, 4, 5, 6, 7, 8])
      ≠ [1, 2, 3, 4, 5, 6, 7, 8] := by
  refine ⟨makeGsOnlyBytes_eq p g, makeGsOnlyBytes_gsLen p g hg, ?_, ?_,
    by decide, by decide⟩
  · simp only [gsOnlyThaw]
    rw [makeGsOnlyBytes_pluginLen p g hp, makeGsOnlyBytes_gsLen p g hg,
      makeGsOnlyBytes_pluginPayload p g, makeGsOnlyBytes_gsPayload p g]
  · unfold recoveryMemGsCopied
    rw [makeGsOnlyBytes_pluginLen p g hp, makeGsOnlyBytes_gsLen p g hg,
      makeGsOnlyBytes_gsPayload p g]

/-- Witness for `claim9_gs_record_roundtrip` at concrete payloads. -/
theorem claim9_witness :
    makeGsOnlyBytes [7, 7] [1, 2, 3]
      = u32Bytes 2 ++ [7, 7] ++ u32Bytes 3 ++ [1, 2, 3] ∧
    readU32At (makeGsOnlyBytes [7, 7] [1, 2, 3]) (2 + 4) = 3 ∧
    gsOnlyThaw (makeGsOnlyBytes [7, 7] [1, 2, 3]) = ([7, 7], 3, [1, 2, 3]) ∧
    recoveryMemGsCopied (makeGsOnlyBytes [7, 7] [1, 2, 3]) = [1, 2, 3] ∧
    recoveryZipGsWritten (makeGsOnlyBytes [7, 7] [1, 2, 3, 4, 5, 6, 7, 8])
      = [8, 0, 0, 0, 1, 2, 3, 4] ∧
    recoveryZipGsWritten (makeGsOnlyBytes [7, 7] [1, 2, 3, 4, 5, 6, 7, 8])
      ≠ [1, 2, 3, 4, 5, 6, 7, 8] :=
  claim9_gs_record_roundtrip [7, 7] [1, 2, 3] (by decide) (by decide)

/-- Claim C10: after `Recover`, `HasState` is `false` (both buffers are
released), the execution cache has been cleared exactly once more, and
when neither buffer was present no thaw is performed while the store and
the cache are still cleared. -/
theorem claim10_recover_clears (s : RState) :
    StateRecovery.HasState (StateRecovery.Recover s) = false ∧
    (StateRecovery.Recover s).recoveryState = none ∧
    (StateRecovery.Recover s).gsRecoveryState = none ∧
    (StateRecovery.Recover s).cacheClears = s.cacheClears + 1 ∧
    (s.recoveryState = none → s.gsRecoveryState = none →
      (StateRecovery.Recover s).thawFull = s.thawFull ∧
      (StateRecovery.Recover s).thawGs = s.thawGs) := by
  unfold StateRecovery.Recover StateRecovery.Clear StateRecovery.HasState
  cases hf : s.recoveryState with
  | some b => simp [hf]
  | none =>
    cases hg : s.gsRecoveryState with
    | some b => simp [hf, hg]
    | none => simp [hf, hg]

/-- Witness for `claim10_recover_clears` at the empty store. -/
theorem claim10_witness :
    StateRecovery.HasState (StateRecovery.Recover emptyStore) = false ∧
    (StateRecovery.Recover emptyStore).recoveryState = none ∧
    (StateRecovery.Recover emptyStore).gsRecoveryState = none ∧
    (StateRecovery.Recover emptyStore).cacheClears
      = emptyStore.cacheClears + 1 ∧
    (emptyStore.recoveryState = none → emptyStore.gsRecoveryState = none →
      (StateRecovery.Recover emptyStore).thawFull = emptyStore.thawFull ∧
      (StateRecovery.Recover emptyStore).thawGs = emptyStore.thawGs) :=
  claim10_recover_clears emptyStore

end PCSX2
